import Mathlib

/-!
Verification of the branch-resolution engine of `git lab mr create`
(`src/cmds/mr/create.rs`).

The heart of the command is one large `match` over the tuple
`(source_branch flag, local_branch, remote_branch, issue_arg)` whose guards
query the GitLab server through `remote_branch_exists` and
`open_mr_on_branch`.  We embed that match as a pure function `resolve` over a
`Ctx` record, with the two probes supplied as boolean oracles
(`er` = `remote_branch_exists`, `omr` = `open_mr_on_branch`) — faithful to the
source, where both helpers return `bool` to the guards.  Arms that call
`create_remote_branch base name` are embedded as `Outcome.Create base name`;
`Ok(name)` arms as `Outcome.UseExisting name`; `Err(...)` arms as
`Outcome.Reject` with a constructor per distinct error message; the final
catch-all arm, which is `unreachable!()` in the source (a panic), is embedded
as `Outcome.Unreachable`.

Strings are Lean `String`s (`List Char` under the hood); `u64` issue ids are
`Nat`.
-/

namespace GitLab

/-- Embeds Rust `str::starts_with` (for a string pattern): the pattern is a
prefix of the character sequence. -/
def str_starts_with (s p : String) : Bool :=
  p.data.isPrefixOf s.data

/-- Embeds `branch_prefixed_with_issue_id` (create.rs:171):
`branch.starts_with(&(id.to_string() + "-"))`. -/
def branch_prefixed_with_issue_id (branch : String) (id : Nat) : Bool :=
  str_starts_with branch (toString id ++ "-")

/-- Embeds `slug_char` behaviour of the `slugify!` crate on one ASCII char:
alphanumerics are lowercased, every other character becomes `-`. -/
def slug_char (c : Char) : Char :=
  if c.isAlphanum then c.toLower else '-'

/-- Collapses runs of consecutive `-` to a single `-` (part of the model of
the `slugify!` crate). -/
def squeeze_dashes : List Char → List Char
  | [] => []
  | [c] => [c]
  | c :: d :: rest =>
    if c = '-' ∧ d = '-' then squeeze_dashes (d :: rest)
    else c :: squeeze_dashes (d :: rest)

/-- Drops leading and trailing `-` (part of the model of the `slugify!`
crate). -/
def trim_dashes (l : List Char) : List Char :=
  ((l.dropWhile (fun c => c == '-')).reverse.dropWhile (fun c => c == '-')).reverse

/-- Embeds `slug` (create.rs:192), i.e. the `slugify!` macro of the slugify
crate, on its ASCII fragment: lowercase, non-alphanumerics to `-`, runs of
`-` collapsed, leading/trailing `-` trimmed. -/
def slug (s : String) : String :=
  String.mk (trim_dashes (squeeze_dashes (s.data.map slug_char)))

/-- Embeds `slug_and_prefix` (create.rs:197): `format!("{}-{}", id, slug(s))`.
(Renamed here; the transformation is unchanged.) -/
def issue_slug (id : Nat) (s : String) : String :=
  toString id ++ "-" ++ slug s

/-- Placeholder for a GitLab API endpoint value (its payload is irrelevant to
the control flow we verify). -/
def EndpointT : Type := Unit

/-- Placeholder for the deserialized `Branch` payload of a branch query. -/
def BranchT : Type := Unit

/-- Transport/network error surfaced by an API query. -/
def ProbeError : Type := String

/-- Embeds `remote_branch_exists` (create.rs:35-50).  The endpoint builder may
fail (`endpoint.is_none()` → `false`); the query result (`Result<Branch,_>`)
is collapsed with `.ok()` into an `Option` and the function returns
`branch.is_some()`.  In particular a transport error in `query` yields
`false`. -/
def remote_branch_exists (endpoint : Option EndpointT)
    (query : EndpointT → Except ProbeError BranchT) : Bool :=
  match endpoint with
  | none => false
  | some e =>
    match (query e).toOption with
    | some _ => true
    | none => false

/-- State of a merge request as returned by the GraphQL search. -/
inductive MrState where
  | opened
  | locked
  | merged
  | closed
deriving DecidableEq, BEq

/-- Embeds `open_mr_on_branch` (create.rs:53-75).  The GraphQL response is
`.unwrap()`ed — a transport error panics, which we model as `none`; otherwise
the function returns `false` on an empty node list, else whether any returned
merge request is `locked` or `opened`. -/
def open_mr_on_branch (response : Except ProbeError (List MrState)) : Option Bool :=
  match response with
  | .error _ => none
  | .ok mrs =>
    if mrs.isEmpty then some false
    else some (mrs.any (fun b => b == MrState.locked || b == MrState.opened))

/-- The resolution context gathered by `create_merge_request_cmd` before the
source-branch `match` (create.rs:359-364): the `--source` flag, the local
branch, its tracking remote branch, the `--issue` id, plus the project's
default branch and the resolved title used by the slug fallbacks. -/
structure Ctx where
  explicit_source : Option String
  local_branch : Option String
  remote_branch : Option String
  issue_id : Option Nat
  defaultbranch : String
  title : String

/-- The classified errors produced by the `Err(anyhow!(...))` arms of the
source-branch `match`, one constructor per distinct message. -/
inductive Reason where
  /-- "Passed branch s must start with i- to be associated with the issue."
  (create.rs:376-379) -/
  | NamingViolationExplicit (branch : String) (issue : Nat)
  /-- "Passed branch s is already a source for an open merge request on the
  server." (create.rs:391-396) -/
  | AlreadyInUseExplicit (branch : String)
  /-- "Remote branch r is already a source for an open merge request on the
  server." (create.rs:424-430) -/
  | AlreadyInUseRemote (branch : String)
  /-- "Local branch l must start with i- to be associated with the issue."
  (create.rs:483-487) -/
  | NamingViolationLocal (branch : String) (issue : Nat)
  /-- "Remote branch b exists on the server and is already associated to
  issue #i" (create.rs:489-495) -/
  | AlreadyAssociated (branch : String) (issue : Nat)
deriving DecidableEq

/-- Result of the source-branch `match` (create.rs:359-535): a reused remote
branch (`Ok(existing)`), a call to `create_remote_branch base name`, a
classified error, or the final catch-all arm — `unreachable!()`, i.e. a
panic — modelled as `Unreachable`. -/
inductive Outcome where
  | UseExisting (name : String)
  | Create (base name : String)
  | Reject (r : Reason)
  | Unreachable
deriving DecidableEq

/-- Embeds the source-branch `match` of `create_merge_request_cmd`
(create.rs:359-535) arm for arm, in source order.  Rust guard fall-through is
flattened into nested `if`s per pattern shape; `er name` stands for
`remote_branch_exists(project_id, name, client)` and `omr name` for
`open_mr_on_branch(project_path, name, client)`, both of which return plain
`bool` to the guards. -/
def resolve (ctx : Ctx) (er omr : String → Bool) : Outcome :=
  match ctx.explicit_source, ctx.local_branch, ctx.remote_branch, ctx.issue_id with
  | some s, _, _, none =>
    if er s && !omr s then .UseExisting s
    else if er s && omr s then .Reject (.AlreadyInUseExplicit s)
    else .Create ctx.defaultbranch s
  | some s, _, _, some i =>
    if !branch_prefixed_with_issue_id s i then .Reject (.NamingViolationExplicit s i)
    else if er s && !omr s && branch_prefixed_with_issue_id s i then .UseExisting s
    else if er s && omr s then .Reject (.AlreadyInUseExplicit s)
    else .Create ctx.defaultbranch s
  | none, some l, some r, some i =>
    if er r && branch_prefixed_with_issue_id r i then .UseExisting r
    else if er r && !branch_prefixed_with_issue_id r i && r != ctx.defaultbranch then
      .UseExisting r
    else if !er r then .Create ctx.defaultbranch r
    else if l == ctx.defaultbranch && er (issue_slug i ctx.title) then
      .Reject (.AlreadyAssociated (issue_slug i ctx.title) i)
    else if l == ctx.defaultbranch && !er (issue_slug i ctx.title) then
      .Create ctx.defaultbranch (issue_slug i ctx.title)
    else .Unreachable
  | none, some l, some r, none =>
    if er r && omr r then .Reject (.AlreadyInUseRemote r)
    else if er r && r != ctx.defaultbranch then .UseExisting r
    else if er r && r == ctx.defaultbranch then .Create ctx.defaultbranch (slug ctx.title)
    else if !er r then .Create ctx.defaultbranch r
    else if l == ctx.defaultbranch && !er (slug ctx.title) then
      .Create ctx.defaultbranch (slug ctx.title)
    else .Unreachable
  | none, some l, none, some i =>
    if branch_prefixed_with_issue_id l i then .Create ctx.defaultbranch l
    else if l != ctx.defaultbranch then .Reject (.NamingViolationLocal l i)
    else if l == ctx.defaultbranch && er (issue_slug i ctx.title) then
      .Reject (.AlreadyAssociated (issue_slug i ctx.title) i)
    else if l == ctx.defaultbranch && !er (issue_slug i ctx.title) then
      .Create ctx.defaultbranch (issue_slug i ctx.title)
    else .Unreachable
  | none, some l, none, none =>
    if l != ctx.defaultbranch && !er l then .Create ctx.defaultbranch l
    else if l == ctx.defaultbranch && !er (slug ctx.title) then
      .Create ctx.defaultbranch (slug ctx.title)
    else .Unreachable
  | none, none, _, _ => .Unreachable

/-- Branch name carried by a successful outcome (`UseExisting` or `Create`). -/
def outcome_branch : Outcome → Option String
  | .UseExisting n => some n
  | .Create _ n => some n
  | .Reject _ => none
  | .Unreachable => none

/-- Embeds the remote-prefix handling of `get_current_remote_branch_name`
(create.rs:144-148): if the upstream name starts with `origin/` the first
occurrence of `origin/` is removed (`replacen("origin/", "", 1)` — under the
`starts_with` guard this drops the 7-character prefix); otherwise the name is
returned unchanged. -/
def strip_origin (name : String) : String :=
  if str_starts_with name "origin/" then String.mk (name.data.drop 7)
  else name

/-- Embeds Rust `str::lines` helper state: split a character list at `\n`,
producing one piece per segment (k newlines give k+1 pieces). -/
def split_nl : List Char → List (List Char)
  | [] => [[]]
  | c :: cs =>
    if c = '\n' then [] :: split_nl cs
    else
      match split_nl cs with
      | [] => [[c]]
      | p :: ps => (c :: p) :: ps

/-- Drops one trailing `\r` from a line, as Rust `str::lines` does. -/
def strip_cr (l : List Char) : List Char :=
  match l.getLast? with
  | some c => if c = '\r' then l.dropLast else l
  | none => l

/-- Embeds Rust `str::lines().collect::<Vec<_>>()`: an empty string yields no
lines; otherwise split at `\n`, drop the empty piece produced by a trailing
newline, and strip one trailing `\r` per line. -/
def str_lines (s : String) : List String :=
  match s.data with
  | [] => []
  | l =>
    let ps := split_nl l
    let ps := if l.getLast? = some '\n' then ps.dropLast else ps
    ps.map (fun p => String.mk (strip_cr p))

/-- Embeds `get_commit_details` (create.rs:77-100) after the commit message
has been read: `message_lines = message.lines().collect()`; if more than two
lines, return `(Some(lines[0]), Some(lines[2..].join("\n")))`, else
`(Some(lines[0]), None)`.  Indexing `lines[0]` on an empty line list is a
panic, modelled as `none`. -/
def get_commit_details (message : String) : Option (Option String × Option String) :=
  let message_lines := str_lines message
  if 2 < message_lines.length then
    match message_lines with
    | [] => none
    | l0 :: _ =>
      some (some l0, some (String.intercalate "\n" (message_lines.drop 2)))
  else
    match message_lines with
    | [] => none
    | l0 :: _ => some (some l0, none)

/-! ## Helper lemmas -/

theorem isPrefixOf_append_self (l₁ l₂ : List Char) : l₁.isPrefixOf (l₁ ++ l₂) = true := by
  induction l₁ with
  | nil => simp [List.isPrefixOf]
  | cons a as ih => simp [List.isPrefixOf, ih]

theorem string_data_append (s t : String) : (s ++ t).data = s.data ++ t.data := by
  cases s; cases t; rfl

theorem issue_slug_prefixed (i : Nat) (t : String) :
    branch_prefixed_with_issue_id (issue_slug i t) i = true := by
  unfold branch_prefixed_with_issue_id issue_slug str_starts_with
  rw [string_data_append, string_data_append]
  rw [← string_data_append (toString i) "-"]
  exact isPrefixOf_append_self _ _

/-! ## Claim theorems -/

/-- C1: the claim says the source-branch resolution always evaluates to
exactly one `Outcome` and never panics; but the code panics (`unreachable!()`)
on the reachable input "no explicit source, local branch present and distinct
from the default branch, no tracking remote branch, no issue, local branch
name already exists remotely": no match arm covers it. -/
theorem resolve_panics_on_existing_untracked_local :
    resolve ⟨none, some "feature-x", none, none, "master", "My Title"⟩
      (fun _ => true) (fun _ => false) = Outcome.Unreachable := by decide

/-- C2 counterexample: with `issue_id = some 42` the resolver accepts via
`UseExisting` the existing tracking remote branch "feature-x", which is not
the default branch and does not start with "42-" — so the naming invariant as
claimed does not hold on every accepted branch. -/
theorem naming_invariant_counterexample :
    resolve ⟨none, some "feature-x", some "feature-x", some 42, "master", "My Title"⟩
        (fun _ => true) (fun _ => false) = Outcome.UseExisting "feature-x"
    ∧ branch_prefixed_with_issue_id "feature-x" 42 = false
    ∧ "feature-x" ≠ "master" := by decide

/-- C2 amended: when `issue_id = some i`, every branch accepted as
`UseExisting` or created via `Create` that differs from the default branch
either carries the "i-" prefix or is the tracking remote branch name taken
as-is (the two off-convention arms at create.rs:413-421 and 453-461). -/
theorem naming_invariant_amended (ctx : Ctx) (er omr : String → Bool) (i : Nat) (name : String)
    (hi : ctx.issue_id = some i)
    (hb : outcome_branch (resolve ctx er omr) = some name)
    (hd : name ≠ ctx.defaultbranch) :
    branch_prefixed_with_issue_id name i = true ∨ ctx.remote_branch = some name := by
  obtain ⟨es, lb, rb, ii, db, ti⟩ := ctx
  simp only at hi
  subst hi
  cases es with
  | some s =>
    unfold resolve at hb
    simp only at hb
    by_cases hp : branch_prefixed_with_issue_id s i = true
    · rw [if_neg (by simp [hp])] at hb
      by_cases h2 : (er s && !omr s && branch_prefixed_with_issue_id s i) = true
      · rw [if_pos h2] at hb
        simp only [outcome_branch, Option.some.injEq] at hb
        subst hb
        exact Or.inl hp
      · rw [if_neg h2] at hb
        by_cases h3 : (er s && omr s) = true
        · rw [if_pos h3] at hb
          simp only [outcome_branch] at hb
          exact Option.noConfusion hb
        · rw [if_neg h3] at hb
          simp only [outcome_branch, Option.some.injEq] at hb
          subst hb
          exact Or.inl hp
    · have hpf : branch_prefixed_with_issue_id s i = false := by simpa using hp
      rw [if_pos (by simp [hpf])] at hb
      simp only [outcome_branch] at hb
      exact Option.noConfusion hb
  | none =>
    cases lb with
    | none =>
      simp only [resolve, outcome_branch] at hb
      exact Option.noConfusion hb
    | some l =>
      cases rb with
      | some r =>
        unfold resolve at hb
        simp only at hb
        by_cases h1 : (er r && branch_prefixed_with_issue_id r i) = true
        · rw [if_pos h1] at hb
          simp only [outcome_branch, Option.some.injEq] at hb
          subst hb
          exact Or.inr rfl
        · rw [if_neg h1] at hb
          by_cases h2 : (er r && !branch_prefixed_with_issue_id r i && (r != db)) = true
          · rw [if_pos h2] at hb
            simp only [outcome_branch, Option.some.injEq] at hb
            subst hb
            exact Or.inr rfl
          · rw [if_neg h2] at hb
            by_cases h3 : (!er r) = true
            · rw [if_pos h3] at hb
              simp only [outcome_branch, Option.some.injEq] at hb
              subst hb
              exact Or.inr rfl
            · rw [if_neg h3] at hb
              by_cases h4 : (l == db && er (issue_slug i ti)) = true
              · rw [if_pos h4] at hb
                simp only [outcome_branch] at hb
                exact Option.noConfusion hb
              · rw [if_neg h4] at hb
                by_cases h5 : (l == db && !er (issue_slug i ti)) = true
                · rw [if_pos h5] at hb
                  simp only [outcome_branch, Option.some.injEq] at hb
                  subst hb
                  exact Or.inl (issue_slug_prefixed i ti)
                · rw [if_neg h5] at hb
                  simp only [outcome_branch] at hb
                  exact Option.noConfusion hb
      | none =>
        unfold resolve at hb
        simp only at hb
        by_cases h1 : branch_prefixed_with_issue_id l i = true
        · rw [if_pos h1] at hb
          simp only [outcome_branch, Option.some.injEq] at hb
          subst hb
          exact Or.inl h1
        · rw [if_neg h1] at hb
          by_cases h2 : (l != db) = true
          · rw [if_pos h2] at hb
            simp only [outcome_branch] at hb
            exact Option.noConfusion hb
          · rw [if_neg h2] at hb
            by_cases h3 : (l == db && er (issue_slug i ti)) = true
            · rw [if_pos h3] at hb
              simp only [outcome_branch] at hb
              exact Option.noConfusion hb
            · rw [if_neg h3] at hb
              by_cases h4 : (l == db && !er (issue_slug i ti)) = true
              · rw [if_pos h4] at hb
                simp only [outcome_branch, Option.some.injEq] at hb
                subst hb
                exact Or.inl (issue_slug_prefixed i ti)
              · rw [if_neg h4] at hb
                simp only [outcome_branch] at hb
                exact Option.noConfusion hb

/-- C2 witness: the amended invariant applied to a concrete resolution — the
explicit, correctly prefixed source "42-fix" with no remote branch in the
context. -/
theorem naming_invariant_amended_witness :
    branch_prefixed_with_issue_id "42-fix" 42 = true ∨ (none : Option String) = some "42-fix" :=
  naming_invariant_amended ⟨some "42-fix", none, none, some 42, "master", "t"⟩
    (fun _ => false) (fun _ => false) 42 "42-fix" rfl (by decide) (by decide)

/-- C3: the claim says that with no explicit source, no local branch and no
tracking remote branch the resolver rejects with a classified
`NoBranchInformation` error; but for every issue id, probe oracle, default
branch and title, the code hits the catch-all arm — `unreachable!()`, a
panic — since every non-catch-all arm requires an explicit source or a local
branch. -/
theorem resolve_panics_on_no_branch_information (issue : Option Nat)
    (er omr : String → Bool) (db t : String) :
    resolve ⟨none, none, none, issue, db, t⟩ er omr = Outcome.Unreachable := rfl

/-- C4 counterexample: a transport error raised by the branch query inside
`remote_branch_exists` is not propagated — it is collapsed by `.ok()` into
the boolean answer `false`, i.e. "the branch does not exist". -/
theorem probe_error_swallowed_counterexample :
    remote_branch_exists (some ()) (fun _ => Except.error "network down") = false := by decide

/-- C4 amended: probe errors are never propagated as classified errors —
`remote_branch_exists` converts every query error into the answer `false`,
and `open_mr_on_branch` panics (`unwrap`, modelled as `none`) on every
transport error. -/
theorem probe_errors_not_propagated (e : ProbeError) (ep : EndpointT) :
    remote_branch_exists (some ep) (fun _ => Except.error e) = false
    ∧ open_mr_on_branch (Except.error e) = none :=
  ⟨rfl, rfl⟩

/-- C5: the claim says that when the tracking remote branch equals the default
branch and exists remotely, resolution creates a fresh branch from the title
for both answers of `has_open_request`; but when an open merge request has the
default branch as source, the code's open-MR arm (create.rs:424-430) fires —
it never compares the remote branch against the default branch, a comment
merely asserts the implication — and rejects with the already-in-use error. -/
theorem default_branch_open_mr_rejected :
    resolve ⟨none, some "feat", some "master", none, "master", "My Title"⟩
      (fun _ => true) (fun _ => true)
      = Outcome.Reject (Reason.AlreadyInUseRemote "master") := by decide

/-- C6: the claim says that on the default local branch, with no tracking
remote and no issue, a remotely existing title slug is rejected with a
classified `BranchAlreadyInUse` error; but the code's only matching arm
(create.rs:519-527) requires the slug NOT to exist remotely, so this input
falls through to the catch-all `unreachable!()` — a panic, not a classified
error. -/
theorem slug_collision_panics :
    resolve ⟨none, some "master", none, none, "master", "My Title"⟩
      (fun _ => true) (fun _ => false) = Outcome.Unreachable := by decide

/-- C7 counterexample: on the default local branch "master" with issue 42 and
no tracking remote, when the synthesized branch "42-my-title" already exists
remotely the resolver does NOT return `Create` — it rejects with the
"already associated" error (create.rs:489-495), so the claimed outcome does
not hold for every `exists_remotely` answer. -/
theorem issue_fallback_counterexample :
    branch_prefixed_with_issue_id "master" 42 = false
    ∧ resolve ⟨none, some "master", none, some 42, "master", "My Title"⟩
        (fun _ => true) (fun _ => true)
        = Outcome.Reject (Reason.AlreadyAssociated (issue_slug 42 "My Title") 42) := by decide

/-- C7 amended: with no explicit source, no tracking remote, a local branch
equal to the default branch, and an issue id whose prefix the local branch
lacks, resolution yields `Create(default, "<i>-" + slug(title))` when that
synthesized name does not exist remotely, and rejects with the classified
"already associated" error when it does. -/
theorem issue_fallback_amended (ctx : Ctx) (er omr : String → Bool) (l : String) (i : Nat)
    (hs : ctx.explicit_source = none) (hl : ctx.local_branch = some l)
    (hr : ctx.remote_branch = none) (hi : ctx.issue_id = some i)
    (hp : branch_prefixed_with_issue_id l i = false) (hd : l = ctx.defaultbranch) :
    resolve ctx er omr =
      if er (issue_slug i ctx.title) then
        Outcome.Reject (Reason.AlreadyAssociated (issue_slug i ctx.title) i)
      else Outcome.Create ctx.defaultbranch (issue_slug i ctx.title) := by
  obtain ⟨es, lb, rb, ii, db, ti⟩ := ctx
  simp only at hs hl hr hi hd
  subst hs hl hr hi hd
  unfold resolve
  simp only [hp, Bool.false_eq_true, if_false, bne_self_eq_false, beq_self_eq_true,
    Bool.true_and, Bool.false_eq_true, if_false]
  by_cases he : er (issue_slug i ti) = true
  · simp [he]
  · rw [Bool.not_eq_true] at he
    simp [he]

/-- C7 witness: the amended rule at a concrete context where the synthesized
branch does not exist remotely, yielding the `Create` outcome. -/
theorem issue_fallback_amended_witness :
    branch_prefixed_with_issue_id "master" 42 = false
    ∧ resolve ⟨none, some "master", none, some 42, "master", "My Title"⟩
        (fun _ => false) (fun _ => false)
        = Outcome.Create "master" (issue_slug 42 "My Title") := by
  refine ⟨by decide, ?_⟩
  have h := issue_fallback_amended ⟨none, some "master", none, some 42, "master", "My Title"⟩
    (fun _ => false) (fun _ => false) "master" 42 rfl rfl rfl rfl (by decide) rfl
  simpa using h

/-- C8: whenever an explicit source branch is passed together with an issue id
and the branch lacks the "<i>-" prefix, resolution rejects with the classified
naming-convention error, for every probe oracle — the outcome is independent
of every `exists_remotely`/`has_open_request` answer, i.e. decided before any
remote query. -/
theorem explicit_source_naming_check_first (ctx : Ctx) (er omr : String → Bool)
    (s : String) (i : Nat)
    (hs : ctx.explicit_source = some s) (hi : ctx.issue_id = some i)
    (hp : branch_prefixed_with_issue_id s i = false) :
    resolve ctx er omr = Outcome.Reject (Reason.NamingViolationExplicit s i) := by
  obtain ⟨es, lb, rb, ii, db, ti⟩ := ctx
  simp only at hs hi
  subst hs hi
  unfold resolve
  simp [hp]

/-- C8 witness: the naming rejection at a concrete context, with probe oracles
answering `true` everywhere — the answers are irrelevant. -/
theorem explicit_source_naming_check_first_witness :
    branch_prefixed_with_issue_id "fix-bug" 42 = false
    ∧ resolve ⟨some "fix-bug", some "x", some "y", some 42, "master", "t"⟩
        (fun _ => true) (fun _ => true)
        = Outcome.Reject (Reason.NamingViolationExplicit "fix-bug" 42) :=
  ⟨by decide,
    explicit_source_naming_check_first ⟨some "fix-bug", some "x", some "y", some 42, "master", "t"⟩
      (fun _ => true) (fun _ => true) "fix-bug" 42 rfl rfl (by decide)⟩

/-- C9 counterexample: the upstream name "upstream/foo" keeps its remote
prefix — the code only handles the literal prefix "origin/", so the claim
that every remote prefix is stripped fails. -/
theorem strip_origin_counterexample :
    strip_origin "upstream/foo" = "upstream/foo" ∧ strip_origin "upstream/foo" ≠ "foo" := by
  decide

/-- C9 amended: only the literal remote prefix "origin/" is stripped from the
configured upstream branch name: `"origin/" ++ rest` becomes `rest`, and any
name not starting with "origin/" is returned unchanged. -/
theorem strip_origin_amended (rest other : String)
    (hother : str_starts_with other "origin/" = false) :
    strip_origin ("origin/" ++ rest) = rest ∧ strip_origin other = other := by
  constructor
  · unfold strip_origin
    have hpre : str_starts_with ("origin/" ++ rest) "origin/" = true := by
      unfold str_starts_with
      rw [string_data_append]
      exact isPrefixOf_append_self _ _
    rw [hpre]
    simp only [if_true]
    rw [string_data_append]
    have h7 : ("origin/".data).length = 7 := rfl
    rw [← h7, List.drop_left]
  · unfold strip_origin
    rw [hother]
    simp

/-- C9 witness: the amended stripping rule at concrete names. -/
theorem strip_origin_amended_witness :
    str_starts_with "upstream/foo" "origin/" = false
    ∧ (strip_origin ("origin/" ++ "foo") = "foo"
       ∧ strip_origin "upstream/foo" = "upstream/foo") :=
  ⟨by decide, strip_origin_amended "foo" "upstream/foo" (by decide)⟩

/-- C10: commit-message extraction drops the second line and is partial — a
one-line message yields the line as title and no body; a two-line message
yields the first line and no body (the second line is discarded); a message of
three or more lines yields the first line and, as body, the lines from the
third onward joined with newlines; a message with zero lines indexes an empty
list, a panic (modelled as `none`). -/
theorem get_commit_details_spec (msg : String) :
    (str_lines msg = [] → get_commit_details msg = none)
    ∧ (∀ l0, str_lines msg = [l0] → get_commit_details msg = some (some l0, none))
    ∧ (∀ l0 l1, str_lines msg = [l0, l1] → get_commit_details msg = some (some l0, none))
    ∧ (∀ l0 l1 l2 tl, str_lines msg = l0 :: l1 :: l2 :: tl →
        get_commit_details msg
          = some (some l0, some (String.intercalate "\n" (l2 :: tl)))) := by
  refine ⟨fun h => ?_, fun l0 h => ?_, fun l0 l1 h => ?_, fun l0 l1 l2 tl h => ?_⟩
  · simp [get_commit_details, h]
  · simp [get_commit_details, h]
  · simp [get_commit_details, h]
  · simp [get_commit_details, h]

/-- C10 witness: the extraction evaluated on a four-line message (body is the
third and fourth lines; the second line "b" is discarded) and on the empty
message (panic). -/
theorem get_commit_details_spec_witness :
    (str_lines "" = [] ∧ get_commit_details "" = none)
    ∧ (str_lines "a\nb\nc\nd" = ["a", "b", "c", "d"]
       ∧ get_commit_details "a\nb\nc\nd"
           = some (some "a", some (String.intercalate "\n" ["c", "d"]))) :=
  ⟨⟨by decide, (get_commit_details_spec "").1 (by decide)⟩,
   ⟨by decide, (get_commit_details_spec "a\nb\nc\nd").2.2.2 "a" "b" "c" ["d"] (by decide)⟩⟩

end GitLab
